/-
Verification of the transcript-to-document generation script (generate.py).

The script reads a transcript file, POSTs it to a remote interaction service
to obtain a first-level outline, fans out one concurrent call per outline
item to obtain second-level subsections, re-sorts the collected sections
into the original outline order, renders a Word document and shells out to
a converter for a PDF.

Shallow embedding conventions:
  * JSON values are modelled by the inductive `JVal`; a parsed JSON object
    (Python dict) is an association list `JDict` whose lookup returns the
    first binding for a key, matching Python dict semantics for the
    well-formed (duplicate-free) dicts the script manipulates.
  * The single HTTP POST performed by `execute_interaction` is abstracted
    by an `HttpOutcome` describing what the one attempt produced: a
    response with a status code, raw text and the result of JSON-decoding
    the body (`none` when the body is not valid JSON), a timeout, or a
    lower-level transport failure (`requests.exceptions.RequestException`).
    `execute_interaction` consumes exactly one outcome: the code performs
    a single attempt with no retries, and that is structural here.
    Response bodies that decode to a non-object JSON value are outside the
    remote-service contract exercised by the script and are not modelled:
    a decoded body is a `JDict`.
  * Python attribute errors (calling `.get` on a non-dict) are modelled by
    `Option`: `none` means the Python code raises at that point.
  * `sorted(..., key=...)` in Python is a stable sort; it is modelled by
    the stable insertion sort `sortByKey` (any two stable sorts by the
    same key agree on every input).
-/
import Mathlib

namespace TranscriptGen

/-- A JSON value as manipulated by the script: strings, arrays, objects.
    (Numbers/booleans/null never occur in the fields the script reads;
    they could be added as extra constructors without affecting anything.) -/
inductive JVal where
  | str (s : String)
  | list (xs : List JVal)
  | dict (fields : List (String × JVal))

/-- A parsed JSON object (a Python dict). -/
abbrev JDict := List (String × JVal)

/-- `d[k]` / `k in d`: first binding for `k`, as in a Python dict. -/
def jget (d : JDict) (k : String) : Option JVal :=
  (d.find? (fun p => p.1 == k)).map (fun p => p.2)

/-- Python `d.get(k, default)`. -/
def jgetD (d : JDict) (k : String) (dflt : JVal) : JVal :=
  (jget d k).getD dflt

/-- Python `k in d`. -/
def hasKey (d : JDict) (k : String) : Bool :=
  (jget d k).isSome

/-- Python `x.get(k, default)` on an arbitrary value: succeeds only when
    `x` is a dict; on any other value Python raises `AttributeError`,
    modelled as `none`. -/
def pyGet (v : JVal) (k : String) (dflt : JVal) : Option JVal :=
  match v with
  | .dict d => some (jgetD d k dflt)
  | _ => none

/-- Python truthiness for the JSON values the script tests with `if not x`. -/
def pyTruthy : JVal → Bool
  | .str s => !(s == "")
  | .list xs => !xs.isEmpty
  | .dict d => !d.isEmpty

/-- What the single HTTP POST attempt inside `execute_interaction`
    produced.  `response status text body` is a completed HTTP exchange:
    `status` is `response.status_code`, `text` is `response.text`, and
    `body` is the result of `response.json()` (`none` when the body is not
    valid JSON, in which case Python raises `ValueError` there). -/
inductive HttpOutcome where
  | response (status : Nat) (text : String) (body : Option JDict)
  | timeout
  | requestException (msg : String)

/-- `execute_interaction` (generate.py lines 13-41): one POST attempt; a
    200 response with a decodable body returns the parsed JSON, every
    failure path returns a dict carrying an `error` key instead of
    raising.  The function is total over `HttpOutcome`: no exception
    escapes, and it consumes exactly one outcome (no retries). -/
def execute_interaction (outcome : HttpOutcome) : JDict :=
  match outcome with
  | .response status text body =>
      if status == 200 then
        match body with
        | some parsed => parsed
        | none => [("error", .str "Invalid JSON response")]
      else
        [("error", .str ("Error: " ++ toString status ++ " - " ++ text))]
  | .timeout =>
      [("error", .str "The request timed out. Try increasing the timeout duration.")]
  | .requestException e =>
      [("error", .str ("An error occurred: " ++ e))]

/-- Result of `read_file_as_json`: either the payload, or the script
    printed a file-not-found message and called `sys.exit(1)`. -/
inductive ReadResult where
  | payload (d : JDict)
  | exitFileNotFound

/-- `read_file_as_json` (generate.py lines 43-53): the file system is
    abstracted by `fileContent`, the decoded text content of the file at
    `filename` (`none` when opening raises `FileNotFoundError`). -/
def read_file_as_json (fileContent : Option String) : ReadResult :=
  match fileContent with
  | some content => .payload [("transcript", .str content)]
  | none => .exitFileNotFound

/-- The worker body `call_second_outline` (generate.py lines 61-69) for one
    outline item, given the outcome of its own `execute_interaction` call.
    `result.get("result", {}).get("second_level_outline", [])`: the outer
    `.get` is on the dict returned by `execute_interaction`; the inner
    `.get` raises `AttributeError` (modelled by `none`) when the value of
    the `result` field is not a dict.  On success the worker returns the
    section dict `{"title": item, "subsections": ...}`. -/
def call_second_outline (outline_item : String) (outcome : HttpOutcome) :
    Option JDict :=
  match pyGet (jgetD (execute_interaction outcome) "result" (.dict []))
      "second_level_outline" (.list []) with
  | some subs => some [("title", .str outline_item), ("subsections", subs)]
  | none => none

/-- Python `list.index(x)`: index of the first occurrence.  (Python raises
    `ValueError` when `x` is absent; the aggregator only ever looks up
    titles taken from the list itself, so the out-of-range value returned
    here for absent elements is never reached.) -/
def listIndex (x : String) : List String → Nat
  | [] => 0
  | y :: ys => if y == x then 0 else listIndex x ys + 1

/-- `x["title"]` on a section dict built by `call_second_outline`; the
    field is always present and always a string there. -/
def titleOf (s : JDict) : String :=
  match jget s "title" with
  | some (.str t) => t
  | _ => ""

/-- The sort key of generate.py line 84:
    `lambda x: first_level_outline.index(x["title"])`. -/
def sectionKey (first_level_outline : List String) (s : JDict) : Nat :=
  listIndex (titleOf s) first_level_outline

/-- Stable insertion of `a` into `l`: `a` goes in front of the first
    element whose key is not smaller, so among equal keys earlier input
    elements stay first — the stability contract of Python `sorted`. -/
def insertK {α : Type} (key : α → Nat) (a : α) : List α → List α
  | [] => [a]
  | b :: bs => if key a ≤ key b then a :: b :: bs else b :: insertK key a bs

/-- Stable sort by a `Nat` key, modelling Python `sorted(l, key=key)`
    (Python's timsort is stable; any two stable sorts by the same key
    coincide on every input). -/
def sortByKey {α : Type} (key : α → Nat) : List α → List α
  | [] => []
  | a :: as => insertK key a (sortByKey key as)

/-- The per-index worker: generate.py line 73 submits one future per item
    of `first_level_outline` (index `i` carries the item at position `i`,
    so duplicate items get distinct futures).  `outcomes i` is the
    `HttpOutcome` of that future's own `execute_interaction` call.
    `none` means the worker raised (see `call_second_outline`). -/
def sectionOfIndex (first_level_outline : List String)
    (outcomes : Nat → HttpOutcome) (i : Nat) : Option JDict :=
  (first_level_outline.get? i).bind
    (fun item => call_second_outline item (outcomes i))

/-- The `as_completed` loop of generate.py lines 75-81: `completionOrder`
    lists the future indices in the order the futures complete (a
    permutation of `0, ..., N-1`); a completed worker's section is
    appended, a raised exception is caught, printed and dropped. -/
def collectSections (first_level_outline : List String)
    (outcomes : Nat → HttpOutcome) (completionOrder : List Nat) : List JDict :=
  completionOrder.filterMap (sectionOfIndex first_level_outline outcomes)

/-- `call_second_interaction_parallel` (generate.py lines 55-85): collect
    the sections in completion order, then stably re-sort them by the
    first-occurrence index of their title in the original outline. -/
def call_second_interaction_parallel (first_level_outline : List String)
    (outcomes : Nat → HttpOutcome) (completionOrder : List Nat) : List JDict :=
  sortByKey (sectionKey first_level_outline)
    (collectSections first_level_outline outcomes completionOrder)

/-- `create_word_document` (generate.py lines 87-131), reduced to the part
    later stages depend on: the produced file name
    `f"{base_file_name}_{timestamp}.docx"` (the rendered docx content —
    TOC field markup, headings, bullets — is write-only output and no
    claim is about it).  `ts` is `datetime.now().strftime(...)`. -/
def create_word_document (base_file_name ts : String) : String :=
  base_file_name ++ "_" ++ ts ++ ".docx"

/-- Replace every non-overlapping occurrence of `old` by `new`, scanning
    left to right: the semantics of Python `str.replace(old, new)` (and
    of the non-empty-pattern case this file uses; Python treats an empty
    `old` differently, but the script only replaces the pattern
    `".docx"`). -/
def replaceFuel (o : Char) (os new : List Char) : Nat → List Char → List Char
  | _, [] => []
  | 0, l => l
  | fuel + 1, c :: cs =>
      if (o :: os).isPrefixOf (c :: cs) then
        new ++ replaceFuel o os new fuel (cs.drop os.length)
      else
        c :: replaceFuel o os new fuel cs

/-- Replace every non-overlapping occurrence of the pattern `o :: os` by
    `new`, scanning left to right.  `replaceFuel` consumes one unit of
    fuel per character position, so fuel `l.length` is always enough. -/
def replaceChars (o : Char) (os new : List Char) (l : List Char) : List Char :=
  replaceFuel o os new l.length l

/-- Python `s.replace(old, new)` for a non-empty pattern `old` (the only
    use in the script is the pattern `".docx"`; Python's special handling
    of an empty pattern never arises and an empty pattern is mapped to the
    identity here). -/
def pyReplace (s old new : String) : String :=
  match old.data with
  | [] => s
  | o :: os => ⟨replaceChars o os new.data s.data⟩

/-- Whether the `subprocess.run` call of the converter binary succeeded,
    or raised (binary absent, non-zero exit with `check=True`, ...). -/
inductive ConvOutcome where
  | ok
  | fail (msg : String)

/-- `convert_to_pdf` (generate.py lines 133-146): computes
    `word_file_name.replace(".docx", ".pdf")`, attempts the conversion —
    any exception is caught and printed — and returns the computed name in
    every case.  Totality over `ConvOutcome` is the no-exception-escapes
    guarantee; the returned name does not depend on the attempt at all. -/
def convert_to_pdf (word_file_name : String) (conv : ConvOutcome) : String :=
  let pdf_file_name := pyReplace word_file_name ".docx" ".pdf"
  match conv with
  | .ok => pdf_file_name
  | .fail _ => pdf_file_name

/-- All elements of a JSON array as strings, when they all are strings.
    The script's remote-service contract has `first_level_outline` as an
    array of strings; a truthy non-string-array value is outside every
    claim and is mapped to `RunResult.outsideContract` below. -/
def asStringList : List JVal → Option (List String)
  | [] => some []
  | .str s :: xs => (asStringList xs).map (fun rest => s :: rest)
  | _ => none

/-- How a run of the `__main__` block (generate.py lines 148-187) ends,
    starting after argument parsing.
    * `exitFileNotFound`: `read_file_as_json` printed and `sys.exit(1)`.
    * `firstStageExit e`: the first-stage result carried an `error` key;
      the script prints `e` and `sys.exit(1)` — no second-stage call, no
      document, no PDF conversion happen (structurally: the result does
      not depend on the second-stage or converter parameters).
    * `noOutline`: the script prints "No first level outline found." and
      falls off the end (normal termination, exit status 0) — again no
      second-stage call, no document, no PDF.
    * `completed sections wordFile pdfFile`: full pipeline ran.
    * `crashed`: an uncaught exception (`.get` on a non-dict first-stage
      `result` field) — a traceback, not one of the handled paths.
    * `outsideContract`: truthy `first_level_outline` that is not an
      array of strings; behaviour outside the modelled service contract
      and outside every claim. -/
inductive RunResult where
  | exitFileNotFound
  | firstStageExit (e : JVal)
  | noOutline
  | completed (sections : List JDict) (wordFile pdfFile : String)
  | crashed
  | outsideContract

/-- The `__main__` block after argument parsing (generate.py lines
    158-187).  `fileContent` abstracts the transcript file, `firstOutcome`
    the first-stage HTTP call, `outcomes`/`completionOrder` the fanned-out
    second-stage calls, `ts` the timestamp and `conv` the converter
    subprocess. -/
def main_run (fileContent : Option String) (firstOutcome : HttpOutcome)
    (outcomes : Nat → HttpOutcome) (completionOrder : List Nat)
    (base_file_name ts : String) (conv : ConvOutcome) : RunResult :=
  match read_file_as_json fileContent with
  | .exitFileNotFound => .exitFileNotFound
  | .payload _ =>
    let result := execute_interaction firstOutcome
    match jget result "error" with
    | some e => .firstStageExit e
    | none =>
      match pyGet (jgetD result "result" (.dict [])) "first_level_outline" (.list []) with
      | none => .crashed
      | some outlineVal =>
        if pyTruthy outlineVal then
          match outlineVal with
          | .list items =>
            match asStringList items with
            | some first_level_outline =>
              let sections := call_second_interaction_parallel
                first_level_outline outcomes completionOrder
              let wordFile := create_word_document base_file_name ts
              .completed sections wordFile (convert_to_pdf wordFile conv)
            | none => .outsideContract
          | _ => .outsideContract
        else
          .noOutline

/-- The four failure conditions of `execute_interaction`: non-200 status,
    a 200 response whose body is not valid JSON, a timeout, a lower-level
    transport failure. -/
def isFailureOutcome : HttpOutcome → Bool
  | .response status _ body => !(status == 200) || body.isNone
  | .timeout => true
  | .requestException _ => true

/-- The parsed body's `result` field is absent or is a dict that lacks a
    `second_level_outline` field — the shapes on which the worker's
    `.get` chain falls back to its defaults. -/
def lacksSecondLevel (body : JDict) : Bool :=
  match jgetD body "result" (.dict []) with
  | .dict r => (jget r "second_level_outline").isNone
  | _ => false

/-- `old` occurs nowhere in `stem ++ old` except as the final suffix:
    the condition under which replace-all agrees with suffix
    replacement. -/
def noInteriorOccurrence (stem old : List Char) : Prop :=
  ∀ i < stem.length, old.isPrefixOf ((stem ++ old).drop i) = false

instance (stem old : List Char) : Decidable (noInteriorOccurrence stem old) := by
  unfold noInteriorOccurrence
  infer_instance

/-! ### Properties of the stable sort -/

theorem insertK_perm {α : Type} (key : α → Nat) (a : α) (l : List α) :
    (insertK key a l).Perm (a :: l) := by
  induction l with
  | nil => exact List.Perm.refl _
  | cons b bs ih =>
    simp only [insertK]
    split
    · exact List.Perm.refl _
    · exact (List.Perm.cons b ih).trans (List.Perm.swap a b bs)

theorem sortByKey_perm {α : Type} (key : α → Nat) (l : List α) :
    (sortByKey key l).Perm l := by
  induction l with
  | nil => exact List.Perm.refl _
  | cons a as ih =>
    exact (insertK_perm key a (sortByKey key as)).trans (List.Perm.cons a ih)

/-- Filtering by a predicate that selects a single key class commutes with
    stable insertion. -/
theorem filter_insertK {α : Type} (key : α → Nat) (p : α → Bool) (k0 : Nat)
    (hp : ∀ x, p x = true → key x = k0) (a : α) (l : List α) :
    (insertK key a l).filter p = if p a then a :: l.filter p else l.filter p := by
  induction l with
  | nil => cases h : p a <;> simp [insertK, h]
  | cons b bs ih =>
    simp only [insertK]
    by_cases hab : key a ≤ key b
    · simp [hab, List.filter_cons]
    · by_cases hpb : p b = true
      · have hpa : p a = false := by
          rcases h : p a with _ | _
          · rfl
          · exact absurd (by rw [hp a h, hp b hpb]) hab
        simp [hab, List.filter_cons, hpa, hpb, ih]
      · simp only [Bool.not_eq_true] at hpb
        simp [hab, List.filter_cons, hpb, ih]

/-- Stability of `sortByKey`: the subsequence selected by a single-key-class
    predicate is exactly its subsequence in the input. -/
theorem filter_sortByKey {α : Type} (key : α → Nat) (p : α → Bool) (k0 : Nat)
    (hp : ∀ x, p x = true → key x = k0) (l : List α) :
    (sortByKey key l).filter p = l.filter p := by
  induction l with
  | nil => rfl
  | cons a as ih =>
    simp only [sortByKey]
    rw [filter_insertK key p k0 hp, ih, List.filter_cons]

theorem mem_insertK {α : Type} {key : α → Nat} {a x : α} {l : List α}
    (h : x ∈ insertK key a l) : x = a ∨ x ∈ l := by
  have := (insertK_perm key a l).mem_iff.mp h
  simpa using this

theorem insertK_pairwise {α : Type} (key : α → Nat) (a : α) (l : List α)
    (h : l.Pairwise (fun x y => key x ≤ key y)) :
    (insertK key a l).Pairwise (fun x y => key x ≤ key y) := by
  induction l with
  | nil => simp [insertK]
  | cons b bs ih =>
    rcases List.pairwise_cons.mp h with ⟨hb, hbs⟩
    simp only [insertK]
    by_cases hab : key a ≤ key b
    · rw [if_pos hab]
      refine List.pairwise_cons.mpr ⟨?_, h⟩
      intro x hx
      rcases List.mem_cons.mp hx with rfl | hx
      · exact hab
      · exact Nat.le_trans hab (hb x hx)
    · rw [if_neg hab]
      refine List.pairwise_cons.mpr ⟨?_, ih hbs⟩
      intro x hx
      rcases mem_insertK hx with rfl | hx
      · exact Nat.le_of_not_le hab
      · exact hb x hx

theorem sortByKey_pairwise {α : Type} (key : α → Nat) (l : List α) :
    (sortByKey key l).Pairwise (fun x y => key x ≤ key y) := by
  induction l with
  | nil => exact List.Pairwise.nil
  | cons a as ih => exact insertK_pairwise key a (sortByKey key as) ih

/-- A weakly key-sorted list whose keys are pairwise distinct is strictly
    key-sorted. -/
theorem pairwise_lt_of_pairwise_le_nodup {α : Type} {key : α → Nat} {l : List α}
    (hle : l.Pairwise (fun x y => key x ≤ key y)) (hnd : (l.map key).Nodup) :
    l.Pairwise (fun x y => key x < key y) := by
  induction l with
  | nil => exact List.Pairwise.nil
  | cons a as ih =>
    rcases List.pairwise_cons.mp hle with ⟨ha, has⟩
    have hnd' : (∀ x ∈ as, ¬ key x = key a) ∧ (as.map key).Nodup := by
      simpa [List.nodup_cons] using hnd
    refine List.pairwise_cons.mpr ⟨?_, ih has hnd'.2⟩
    intro x hx
    exact Nat.lt_of_le_of_ne (ha x hx) (fun he => hnd'.1 x hx he.symm)

/-! ### Properties of the aggregator's building blocks -/

theorem titleOf_call_second_outline {item : String} {o : HttpOutcome} {s : JDict}
    (h : call_second_outline item o = some s) : titleOf s = item := by
  unfold call_second_outline at h
  rcases hg : pyGet (jgetD (execute_interaction o) "result" (.dict []))
      "second_level_outline" (.list []) with _ | subs
  · rw [hg] at h
    exact absurd h (by simp)
  · rw [hg] at h
    simp only [Option.some.injEq] at h
    subst h
    rfl

theorem listIndex_of_get? {l : List String} {i : Nat} {x : String}
    (hnd : l.Nodup) (h : l.get? i = some x) : listIndex x l = i := by
  induction l generalizing i with
  | nil => simp [List.get?] at h
  | cons y ys ih =>
    rcases i with _ | i
    · simp only [List.get?, Option.some.injEq] at h
      subst h
      simp [listIndex]
    · simp only [List.get?] at h
      have hx : x ∈ ys := List.get?_mem h
      rcases List.nodup_cons.mp hnd with ⟨hny, hnys⟩
      have hy : ¬ y = x := fun he => hny (he ▸ hx)
      simp only [listIndex, beq_iff_eq, if_neg hy]
      rw [ih hnys h]

theorem sectionKey_of_sectionOfIndex {l : List String} {outcomes : Nat → HttpOutcome}
    {i : Nat} {s : JDict} (hnd : l.Nodup)
    (h : sectionOfIndex l outcomes i = some s) : sectionKey l s = i := by
  unfold sectionOfIndex at h
  rcases hg : l.get? i with _ | item
  · rw [hg] at h
    simp at h
  · rw [hg] at h
    simp only [Option.some_bind] at h
    have ht := titleOf_call_second_outline h
    rw [sectionKey, ht]
    exact listIndex_of_get? hnd hg

theorem length_filterMap_add_none {α β : Type} (f : α → Option β) (m : List α) :
    (m.filterMap f).length + (m.filter (fun a => (f a).isNone)).length = m.length := by
  induction m with
  | nil => rfl
  | cons a as ih =>
    rcases hf : f a with _ | b
    · simp [List.filterMap_cons, List.filter_cons, hf]
      omega
    · simp [List.filterMap_cons, List.filter_cons, hf]
      omega

theorem isPrefixOf_self (l : List Char) : l.isPrefixOf l = true := by
  induction l with
  | nil => rfl
  | cons a as ih => simp [List.isPrefixOf, ih]

/-- Replacing a pattern that occurs only as the final suffix is exactly
    suffix replacement. -/
theorem replaceFuel_no_interior (o : Char) (os new : List Char) (stem : List Char)
    (fuel : Nat) (hfuel : (stem ++ o :: os).length ≤ fuel)
    (h : ∀ i < stem.length, (o :: os).isPrefixOf ((stem ++ o :: os).drop i) = false) :
    replaceFuel o os new fuel (stem ++ o :: os) = stem ++ new := by
  induction stem generalizing fuel with
  | nil =>
    rcases fuel with _ | f
    · simp at hfuel
    · show replaceFuel o os new (f + 1) (o :: os) = new
      simp only [replaceFuel]
      rw [if_pos (isPrefixOf_self (o :: os)), List.drop_length]
      simp [replaceFuel]
  | cons c stem' ih =>
    rcases fuel with _ | f
    · simp at hfuel
    · have h0 : (o :: os).isPrefixOf (c :: (stem' ++ o :: os)) = false := by
        simpa using h 0 (by simp)
      show replaceFuel o os new (f + 1) (c :: (stem' ++ o :: os)) = c :: (stem' ++ new)
      simp only [replaceFuel]
      rw [if_neg (by simp [h0])]
      congr 1
      refine ih f ?_ ?_
      · simp only [List.length_append, List.length_cons] at hfuel ⊢
        omega
      · intro i hi
        simpa using h (i + 1) (by simpa using Nat.succ_lt_succ hi)

theorem pyReplace_docx_suffix (stem : String)
    (h : noInteriorOccurrence stem.data (String.data ".docx")) :
    pyReplace (stem ++ ".docx") ".docx" ".pdf" = stem ++ ".pdf" := by
  rcases stem with ⟨sdata⟩
  show String.mk (replaceFuel '.' ['d', 'o', 'c', 'x'] (String.data ".pdf")
      (sdata ++ String.data ".docx").length (sdata ++ String.data ".docx"))
    = String.mk sdata ++ ".pdf"
  rw [replaceFuel_no_interior '.' ['d', 'o', 'c', 'x'] (String.data ".pdf") sdata
    (sdata ++ String.data ".docx").length (Nat.le_refl _) h]
  rfl

/-! ### Claim theorems -/

/-- C2: each of the four failure conditions of the interaction client —
non-200 HTTP status, a response body that is not valid JSON, a timeout,
and any lower-level transport failure — makes `execute_interaction`
return a dict carrying an `error` key instead of letting an exception
propagate, while a 200 response with a decodable body returns the parsed
body itself.  The function consumes exactly one `HttpOutcome`: the code
performs a single request attempt with no retries, which is structural in
the embedding. -/
theorem execute_interaction_errors_are_values (status : Nat) (text : String)
    (body : Option JDict) (msg : String) (parsed : JDict) (h : status ≠ 200) :
    hasKey (execute_interaction (.response status text body)) "error" = true ∧
    hasKey (execute_interaction (.response 200 text none)) "error" = true ∧
    hasKey (execute_interaction .timeout) "error" = true ∧
    hasKey (execute_interaction (.requestException msg)) "error" = true ∧
    execute_interaction (.response 200 text (some parsed)) = parsed := by
  refine ⟨?_, rfl, rfl, rfl, rfl⟩
  have hb : (status == 200) = false := by simpa using h
  simp [execute_interaction, hb, hasKey, jget]

theorem execute_interaction_errors_are_values_witness :
    hasKey (execute_interaction (.response 503 "overloaded" none)) "error" = true ∧
    hasKey (execute_interaction (.response 200 "overloaded" none)) "error" = true ∧
    hasKey (execute_interaction .timeout) "error" = true ∧
    hasKey (execute_interaction (.requestException "conn refused")) "error" = true ∧
    execute_interaction (.response 200 "overloaded" (some [("result", .dict [])]))
      = [("result", .dict [])] :=
  execute_interaction_errors_are_values 503 "overloaded" none "conn refused"
    [("result", .dict [])] (by decide)

/-- C3: reading a transcript file whose text content is `T` yields exactly
the payload `{"transcript": T}`, with `T` preserved character for
character (the embedding's `String` carries the decoded text, newlines
and Unicode included). -/
theorem read_file_roundtrip (T : String) :
    read_file_as_json (some T) = .payload [("transcript", .str T)] := rfl

/-- C9: the aggregator sorts the collected sections by the index of the
first occurrence of each section's title in the first-level outline
(`sectionKey`), so two sections sharing a title share a sort key, and the
stable sort leaves them in completion order: for every title `t`, the
sections titled `t` appear in the output exactly in the order of the
completion-ordered collected list.  The outline-order guarantee is
therefore deterministic only when the outline titles are pairwise
distinct. -/
theorem equal_title_sections_stay_in_completion_order (l : List String)
    (outcomes : Nat → HttpOutcome) (c : List Nat) (t : String) :
    (call_second_interaction_parallel l outcomes c).filter
        (fun s => titleOf s == t)
      = (collectSections l outcomes c).filter (fun s => titleOf s == t) := by
  unfold call_second_interaction_parallel
  refine filter_sortByKey _ _ (listIndex t l) ?_ _
  intro x hx
  have hxt : titleOf x = t := by simpa using hx
  simp [sectionKey, hxt]

/-- C7: a worker that raises an unexpected exception is caught by the
`as_completed` loop (printed, not re-raised) and its section is omitted:
the aggregator returns exactly the sections of the non-raising workers
(as a multiset, here up to the deterministic re-sort), and the returned
length is N minus the number of indices whose worker raised. -/
theorem raising_workers_are_dropped (l : List String)
    (outcomes : Nat → HttpOutcome) (c : List Nat)
    (hc : c.Perm (List.range l.length)) :
    (call_second_interaction_parallel l outcomes c).Perm
      ((List.range l.length).filterMap (sectionOfIndex l outcomes)) ∧
    (call_second_interaction_parallel l outcomes c).length
      = l.length - ((List.range l.length).filter
          (fun i => (sectionOfIndex l outcomes i).isNone)).length := by
  have hperm : (call_second_interaction_parallel l outcomes c).Perm
      ((List.range l.length).filterMap (sectionOfIndex l outcomes)) :=
    (sortByKey_perm _ _).trans (hc.filterMap _)
  refine ⟨hperm, ?_⟩
  have hlen := length_filterMap_add_none (sectionOfIndex l outcomes)
    (List.range l.length)
  have hr : (List.range l.length).length = l.length := List.length_range _
  have he := hperm.length_eq
  omega

theorem raising_workers_are_dropped_witness :
    (call_second_interaction_parallel ["A", "B"]
        (fun i => if i == 0
          then .response 200 "" (some [("result", .str "bad")])
          else .response 200 "" (some [("result",
            .dict [("second_level_outline", .list [.str "b1"])])]))
        [1, 0]).length
      = 2 - ((List.range 2).filter
          (fun i => (sectionOfIndex ["A", "B"]
            (fun i => if i == 0
              then .response 200 "" (some [("result", .str "bad")])
              else .response 200 "" (some [("result",
                .dict [("second_level_outline", .list [.str "b1"])])]))
            i).isNone)).length :=
  (raising_workers_are_dropped ["A", "B"] _ [1, 0] (by decide)).2

/-- C1 is false as stated: with the duplicate-title outline `["A", "A"]`
and workers returning distinct subsections, the completion order
`[1, 0]` (a permutation of the submission order) makes the aggregator
return the section of outline item 1 before the section of outline item
0 — the output is not the outline-ordered list of sections.  Both
collected sections carry the sort key `listIndex "A" ["A","A"] = 0`, so
the stable sort keeps them in completion order. -/
theorem outline_order_fails_for_duplicate_titles :
    ([1, 0] : List Nat).Perm (List.range 2) ∧
    call_second_interaction_parallel ["A", "A"]
        (fun i => if i == 0
          then .response 200 "" (some [("result",
            .dict [("second_level_outline", .list [.str "s0"])])])
          else .response 200 "" (some [("result",
            .dict [("second_level_outline", .list [.str "s1"])])]))
        [1, 0]
      ≠ (List.range 2).filterMap (sectionOfIndex ["A", "A"]
          (fun i => if i == 0
            then .response 200 "" (some [("result",
              .dict [("second_level_outline", .list [.str "s0"])])])
            else .response 200 "" (some [("result",
              .dict [("second_level_outline", .list [.str "s1"])])]))) := by
  refine ⟨by decide, ?_⟩
  intro hcontra
  have hL : call_second_interaction_parallel ["A", "A"]
      (fun i => if i == 0
        then .response 200 "" (some [("result",
          .dict [("second_level_outline", .list [.str "s0"])])])
        else .response 200 "" (some [("result",
          .dict [("second_level_outline", .list [.str "s1"])])]))
      [1, 0]
    = [[("title", JVal.str "A"), ("subsections", JVal.list [JVal.str "s1"])],
       [("title", JVal.str "A"), ("subsections", JVal.list [JVal.str "s0"])]] := rfl
  have hR : (List.range 2).filterMap (sectionOfIndex ["A", "A"]
      (fun i => if i == 0
        then .response 200 "" (some [("result",
          .dict [("second_level_outline", .list [.str "s0"])])])
        else .response 200 "" (some [("result",
          .dict [("second_level_outline", .list [.str "s1"])])])))
    = [[("title", JVal.str "A"), ("subsections", JVal.list [JVal.str "s0"])],
       [("title", JVal.str "A"), ("subsections", JVal.list [JVal.str "s1"])]] := rfl
  rw [hL, hR] at hcontra
  simp at hcontra

/-- C1 (amended): when the first-level outline titles are pairwise
distinct, the aggregator's output for every completion order is exactly
the successful sections in original outline order — the section produced
for outline item i precedes the one for item j whenever i < j. -/
theorem aggregator_restores_outline_order (l : List String)
    (outcomes : Nat → HttpOutcome) (c : List Nat)
    (hnd : l.Nodup) (hc : c.Perm (List.range l.length)) :
    call_second_interaction_parallel l outcomes c
      = (List.range l.length).filterMap (sectionOfIndex l outcomes) := by
  have hperm : (call_second_interaction_parallel l outcomes c).Perm
      ((List.range l.length).filterMap (sectionOfIndex l outcomes)) :=
    (sortByKey_perm _ _).trans (hc.filterMap _)
  have htgt : ((List.range l.length).filterMap (sectionOfIndex l outcomes)).Pairwise
      (fun x y => sectionKey l x < sectionKey l y) := by
    refine List.pairwise_filterMap.mpr ?_
    refine (List.pairwise_lt_range l.length).imp ?_
    intro i j hij x hx y hy
    rw [sectionKey_of_sectionOfIndex hnd hx, sectionKey_of_sectionOfIndex hnd hy]
    exact hij
  have hle : (call_second_interaction_parallel l outcomes c).Pairwise
      (fun x y => sectionKey l x ≤ sectionKey l y) :=
    sortByKey_pairwise (sectionKey l) _
  have hndk : ((call_second_interaction_parallel l outcomes c).map
      (sectionKey l)).Nodup := by
    refine ((hperm.map (sectionKey l)).nodup_iff).mpr ?_
    have : (((List.range l.length).filterMap (sectionOfIndex l outcomes)).map
        (sectionKey l)).Pairwise (· < ·) := List.pairwise_map.mpr htgt
    exact this.imp Nat.ne_of_lt
  have hlt : (call_second_interaction_parallel l outcomes c).Pairwise
      (fun x y => sectionKey l x < sectionKey l y) :=
    pairwise_lt_of_pairwise_le_nodup hle hndk
  haveI : IsAntisymm JDict (fun x y => sectionKey l x < sectionKey l y) :=
    ⟨fun a b h1 h2 => absurd h1 (Nat.lt_asymm h2)⟩
  exact List.eq_of_perm_of_sorted hperm hlt htgt

theorem aggregator_restores_outline_order_witness :
    call_second_interaction_parallel ["A", "B"]
        (fun i => if i == 0
          then .response 200 "" (some [("result",
            .dict [("second_level_outline", .list [.str "s0"])])])
          else .response 200 "" (some [("result",
            .dict [("second_level_outline", .list [.str "s1"])])]))
        [1, 0]
      = (List.range 2).filterMap (sectionOfIndex ["A", "B"]
          (fun i => if i == 0
            then .response 200 "" (some [("result",
              .dict [("second_level_outline", .list [.str "s0"])])])
            else .response 200 "" (some [("result",
              .dict [("second_level_outline", .list [.str "s1"])])]))) :=
  aggregator_restores_outline_order ["A", "B"] _ [1, 0] (by decide) (by decide)

/-- C4: if the first-stage call returns a non-200 response, the run
prints the error message and exits with status 1 (`firstStageExit`),
and the outcome depends on none of the second-stage outcomes, the
completion order, the document timestamp or the converter: no
second-stage call, no document creation and no PDF conversion happen. -/
theorem first_stage_non_200_aborts_run (content text : String)
    (body : Option JDict) (status : Nat) (outcomes : Nat → HttpOutcome)
    (c : List Nat) (base ts : String) (conv : ConvOutcome) (h : status ≠ 200) :
    main_run (some content) (.response status text body) outcomes c base ts conv
      = .firstStageExit (.str ("Error: " ++ toString status ++ " - " ++ text)) := by
  have hb : (status == 200) = false := by simpa using h
  simp [main_run, read_file_as_json, execute_interaction, hb, jget]

theorem first_stage_non_200_aborts_run_witness :
    main_run (some "the transcript") (.response 404 "not found" none)
        (fun _ => .timeout) [0] "base" "20250101_120000" .ok
      = .firstStageExit (.str ("Error: " ++ toString 404 ++ " - " ++ "not found")) :=
  first_stage_non_200_aborts_run "the transcript" "not found" none 404
    (fun _ => .timeout) [0] "base" "20250101_120000" .ok (by decide)

/-- C5: if the first-stage call succeeds (200, valid JSON, no `error`
key) but the first-level outline it returns has zero items, the run ends
as `noOutline` — the "No first level outline found." message followed by
normal termination — with no second-stage call and no document or PDF,
for every second-stage environment. -/
theorem empty_outline_ends_run_normally (content text : String) (body : JDict)
    (outcomes : Nat → HttpOutcome) (c : List Nat) (base ts : String)
    (conv : ConvOutcome) (hne : jget body "error" = none)
    (hout : pyGet (jgetD body "result" (.dict []))
        "first_level_outline" (.list []) = some (.list [])) :
    main_run (some content) (.response 200 text (some body)) outcomes c base ts conv
      = .noOutline := by
  have hexec : execute_interaction (.response 200 text (some body)) = body := rfl
  simp [main_run, read_file_as_json, hexec, hne, hout, pyTruthy]

theorem empty_outline_ends_run_normally_witness :
    main_run (some "the transcript")
        (.response 200 "ok" (some [("result",
          .dict [("first_level_outline", .list [])])]))
        (fun _ => .timeout) [0] "base" "20250101_120000" .ok
      = .noOutline :=
  empty_outline_ends_run_normally "the transcript" "ok"
    [("result", .dict [("first_level_outline", .list [])])]
    (fun _ => .timeout) [0] "base" "20250101_120000" .ok rfl rfl

/-- C10: whenever the parsed first-stage body contains a top-level
`error` key — here with HTTP status 200 and a perfectly valid JSON body —
the run aborts via `firstStageExit` (prints the value and exits 1): a
legitimate 200 body that happens to carry an `error` key is treated as a
fatal first-stage failure. -/
theorem error_key_in_body_is_fatal (content text : String) (body : JDict)
    (e : JVal) (outcomes : Nat → HttpOutcome) (c : List Nat)
    (base ts : String) (conv : ConvOutcome) (h : jget body "error" = some e) :
    main_run (some content) (.response 200 text (some body)) outcomes c base ts conv
      = .firstStageExit e := by
  have hexec : execute_interaction (.response 200 text (some body)) = body := rfl
  simp [main_run, read_file_as_json, hexec, h]

theorem error_key_in_body_is_fatal_witness :
    main_run (some "the transcript")
        (.response 200 "ok" (some [("error", .str "quota exceeded"),
          ("result", .dict [("first_level_outline", .list [.str "A"])])]))
        (fun _ => .timeout) [0] "base" "20250101_120000" .ok
      = .firstStageExit (.str "quota exceeded") :=
  error_key_in_body_is_fatal "the transcript" "ok"
    [("error", .str "quota exceeded"),
     ("result", .dict [("first_level_outline", .list [.str "A"])])]
    (.str "quota exceeded") (fun _ => .timeout) [0] "base" "20250101_120000" .ok rfl

/-- Shared step for the C6 analysis: when the `result` field of the
parsed body resolves to a dict lacking `second_level_outline`, the worker
returns the section with empty subsections. -/
theorem call_second_outline_of_result_dict (item : String) (outcome : HttpOutcome)
    (r : JDict)
    (hr : jgetD (execute_interaction outcome) "result" (.dict []) = .dict r)
    (hn : jget r "second_level_outline" = none) :
    call_second_outline item outcome
      = some [("title", .str item), ("subsections", .list [])] := by
  unfold call_second_outline
  rw [hr]
  simp [pyGet, jgetD, hn]

/-- C6 is false as stated: the 200-status body `{"result": "oops"}` is a
body without a `second_level_outline` field, yet the worker raises
(`result.get("result", {})` yields the string, whose `.get` raises
`AttributeError`) and the aggregator drops the item instead of producing
`{title: item, subsections: []}` — on a one-item outline it returns no
section at all. -/
theorem non_dict_result_field_drops_section :
    jget [("result", JVal.str "oops")] "second_level_outline" = none ∧
    call_second_outline "A"
        (.response 200 "ok" (some [("result", JVal.str "oops")])) = none ∧
    call_second_interaction_parallel ["A"]
        (fun _ => .response 200 "ok" (some [("result", JVal.str "oops")])) [0]
      = [] :=
  ⟨rfl, rfl, rfl⟩

/-- C6 (amended): for every outline item whose second-stage call returns
an error value (non-200 status, undecodable body, timeout, transport
failure) or a body whose `result` field is absent or resolves to a dict
without a `second_level_outline` field, the worker still produces the
section with title equal to the item and empty subsections — such remote
errors are tolerated, not fatal.  (When the body's `result` field holds a
non-dict value the worker raises instead and the section is dropped; see
the counterexample.) -/
theorem second_stage_failures_yield_empty_sections (item : String)
    (outcome : HttpOutcome)
    (h : isFailureOutcome outcome = true
      ∨ lacksSecondLevel (execute_interaction outcome) = true) :
    call_second_outline item outcome
      = some [("title", .str item), ("subsections", .list [])] := by
  rcases h with h | h
  · rcases outcome with ⟨status, text, body⟩ | _ | msg
    · rcases hs : status == 200 with _ | _
      · have hex : execute_interaction (.response status text body)
            = [("error", .str ("Error: " ++ toString status ++ " - " ++ text))] := by
          simp [execute_interaction, hs]
        exact call_second_outline_of_result_dict item (.response status text body) []
          (by rw [hex]; rfl) rfl
      · have hb : body = none := by
          simp only [isFailureOutcome, hs, Bool.not_true, Bool.false_or,
            Option.isNone_iff_eq_none] at h
          exact h
        subst hb
        have hex : execute_interaction (.response status text none)
            = [("error", .str "Invalid JSON response")] := by
          simp [execute_interaction, hs]
        exact call_second_outline_of_result_dict item (.response status text none) []
          (by rw [hex]; rfl) rfl
    · exact call_second_outline_of_result_dict item .timeout [] rfl rfl
    · exact call_second_outline_of_result_dict item (.requestException msg) [] rfl rfl
  · rcases hd : jgetD (execute_interaction outcome) "result" (.dict [])
        with s | xs | r
    · rw [lacksSecondLevel, hd] at h
      exact absurd h (by simp)
    · rw [lacksSecondLevel, hd] at h
      exact absurd h (by simp)
    · rw [lacksSecondLevel, hd, Option.isNone_iff_eq_none] at h
      exact call_second_outline_of_result_dict item outcome r hd h

theorem second_stage_failures_yield_empty_sections_witness :
    call_second_outline "Chapter 1" .timeout
      = some [("title", .str "Chapter 1"), ("subsections", .list [])] :=
  second_stage_failures_yield_empty_sections "Chapter 1" .timeout (Or.inl rfl)

/-- C8 is false as stated: on the input name `"report.docx.docx"` the
function returns `"report.pdf.pdf"` — `str.replace` replaces every
occurrence of ".docx", not just the final suffix — and not the
suffix-replaced name `"report.docx.pdf"`.  (The no-exception half of the
claim does hold; see the amended theorem.) -/
theorem convert_to_pdf_rewrites_every_occurrence :
    convert_to_pdf "report.docx.docx" (.fail "soffice missing")
      = "report.pdf.pdf" ∧
    convert_to_pdf "report.docx.docx" (.fail "soffice missing")
      ≠ "report.docx.pdf" :=
  ⟨rfl, by decide⟩

/-- C8 (amended): `convert_to_pdf` never lets a conversion failure
(including an absent converter binary) propagate: it is total over
conversion outcomes and its returned name does not depend on the outcome
at all.  The returned name is the input with every occurrence of ".docx"
replaced by ".pdf", which equals the input with its ".docx" suffix
replaced by ".pdf" whenever ".docx" occurs in the name only as the final
suffix. -/
theorem convert_to_pdf_total_and_suffix (stem : String) (conv : ConvOutcome)
    (h : noInteriorOccurrence stem.data (String.data ".docx")) :
    convert_to_pdf (stem ++ ".docx") conv = stem ++ ".pdf" ∧
    convert_to_pdf (stem ++ ".docx") conv
      = convert_to_pdf (stem ++ ".docx") .ok := by
  have hok : convert_to_pdf (stem ++ ".docx") .ok = stem ++ ".pdf" := by
    have hh : convert_to_pdf (stem ++ ".docx") .ok
        = pyReplace (stem ++ ".docx") ".docx" ".pdf" := rfl
    rw [hh, pyReplace_docx_suffix stem h]
  have hc : convert_to_pdf (stem ++ ".docx") conv
      = convert_to_pdf (stem ++ ".docx") .ok := by
    cases conv <;> rfl
  exact ⟨hc.trans hok, hc⟩

theorem convert_to_pdf_total_and_suffix_witness :
    convert_to_pdf ("transcript_20250101_120000" ++ ".docx")
        (.fail "soffice missing")
      = "transcript_20250101_120000" ++ ".pdf" :=
  (convert_to_pdf_total_and_suffix "transcript_20250101_120000"
    (.fail "soffice missing") (by decide)).1

end TranscriptGen
